import Mathlib

/-!
Verification of the authentication subsystem of the LMS backend:
JWT issue/verify (`backend/core/utils/jwt_hanlder.py`), password hashing
(`backend/core/utils/helper.py`), the request authenticator
(`backend/core/utils/auth_dependencies.py`) and the five auth workflow
services (`backend/apps/v1/api/auth/services/*.py`), shallowly embedded
as pure Lean functions.  Times are seconds as `Nat`; the persistence
store is a list of user rows; exceptions of the Python code are an
explicit `Except` result, with each service's outer `try/except` embedded
by mapping every raised exception to the service's catch-all response.
-/

/-- User row (`backend/apps/v1/api/auth/models/model.py`), restricted to the
fields the auth services read or write. -/
structure Users where
  id : Nat
  email : String
  password : String
  full_name : String
  is_active : Bool
  is_verified : Bool
deriving Repr, DecidableEq

/-- Decoded JWT payload: the claim keys the system reads
(`user_id`, `email`, `type`), plus `exp` and `iat` (seconds).
Absent keys are `none` (Python `dict.get` returns `None`). -/
structure Claims where
  user_id : Option String
  email : Option String
  type : Option String
  exp : Nat
  iat : Nat
deriving Repr, DecidableEq

/-- A well-formed encoded JWT: its payload plus the key and algorithm it was
signed with (signature validity is key/algorithm equality in the model). -/
structure Jwt where
  claims : Claims
  key : String
  alg : String
deriving Repr, DecidableEq

/-- A token string as received on the wire: a bare JWT, a JWT with the
literal `"Bearer "` text in front of it, or any other string (which no
decoder accepts). -/
inductive TokenStr where
  | jwt (t : Jwt)
  | bearer (t : Jwt)
  | raw (s : String)
deriving Repr, DecidableEq

/-- Python exceptions visible to the auth code: `HTTPException` with status
code and detail, or any other unexpected exception. -/
inductive PyExc where
  | http (status_code : Nat) (detail : String)
  | other
deriving Repr, DecidableEq

/-- Configuration of `JWTHandler.__init__`: secret key, algorithm and the
two configured lifetimes. -/
structure JWTHandler where
  secret_key : String
  algorithm : String
  access_token_expire_minutes : Nat
  refresh_token_expire_days : Nat
deriving Repr, DecidableEq

/-- The `token[7:]` stripping of an optional `"Bearer "` prefix performed
at the top of `verify_token` and `verify_refresh_token`. -/
def stripBearer : TokenStr → TokenStr
  | .bearer t => .jwt t
  | x => x

/-- Outcome of `jose.jwt.decode`: decoded payload, `ExpiredSignatureError`,
or `JWTError`. -/
inductive DecodeOutcome where
  | ok (payload : Claims)
  | expiredSig
  | jwtErr
deriving Repr, DecidableEq

/-- Model of `jose.jwt.decode(token, secret, algorithms=[alg])`: only a bare
well-formed JWT signed with the given secret and algorithm decodes; with a
valid signature, an `exp` in the past raises `ExpiredSignatureError`
(jose: expired iff `exp < now` with zero leeway); anything else raises
`JWTError`. -/
def jwt_decode (secret : String) (alg : String) (now : Nat) : TokenStr → DecodeOutcome
  | .jwt t =>
      if t.key == secret && t.alg == alg then
        if t.claims.exp < now then .expiredSig else .ok t.claims
      else .jwtErr
  | .bearer _ => .jwtErr
  | .raw _ => .jwtErr

/-- `JWTHandler.verify_token` (jwt_hanlder.py lines 50-82): strip the
optional Bearer text, decode, and map the two jose failures to 401
`HTTPException`s.  No `type` claim check is performed. -/
def JWTHandler.verify_token (h : JWTHandler) (now : Nat) (token : TokenStr) :
    Except PyExc Claims :=
  match jwt_decode h.secret_key h.algorithm now (stripBearer token) with
  | .ok payload => .ok payload
  | .expiredSig => .error (.http 401 "Token has expired")
  | .jwtErr => .error (.http 401 "Could not validate credentials")

/-- `JWTHandler.verify_refresh_token` (jwt_hanlder.py lines 160-202): like
`verify_token`, plus a 401 `HTTPException` when the decoded payload's
`type` claim is not `"refresh"` (the wrong-type `HTTPException` is raised
inside the `try` but is not a `JWTError`, so it escapes the handlers). -/
def JWTHandler.verify_refresh_token (h : JWTHandler) (now : Nat) (token : TokenStr) :
    Except PyExc Claims :=
  match jwt_decode h.secret_key h.algorithm now (stripBearer token) with
  | .ok payload =>
      if payload.type != some "refresh" then
        .error (.http 401 "Invalid token type: refresh token required")
      else
        .ok payload
  | .expiredSig => .error (.http 401 "Refresh token has expired")
  | .jwtErr => .error (.http 401 "Could not validate refresh token")

/-- The `token_data` dictionary every service passes to the token creators:
`{"user_id": str(user.id), "email": user.email}`. -/
structure TokenData where
  user_id : String
  email : String
deriving Repr, DecidableEq

/-- `JWTHandler.create_access_token`: embeds the data plus `exp` and `iat`;
no `type` claim is added. -/
def JWTHandler.create_access_token (h : JWTHandler) (now : Nat) (data : TokenData) : TokenStr :=
  .jwt { claims := { user_id := some data.user_id, email := some data.email, type := none,
                     exp := now + h.access_token_expire_minutes * 60, iat := now },
         key := h.secret_key, alg := h.algorithm }

/-- `JWTHandler.create_refresh_token`: embeds the data plus `exp`, `iat` and
`type = "refresh"`. -/
def JWTHandler.create_refresh_token (h : JWTHandler) (now : Nat) (data : TokenData) : TokenStr :=
  .jwt { claims := { user_id := some data.user_id, email := some data.email, type := some "refresh",
                     exp := now + h.refresh_token_expire_days * 86400, iat := now },
         key := h.secret_key, alg := h.algorithm }

/-- `JWTHandler.create_password_reset_token`: embeds the data plus `exp`
one hour ahead, `iat` and `type = "password_reset"`. -/
def JWTHandler.create_password_reset_token (h : JWTHandler) (now : Nat) (data : TokenData) : TokenStr :=
  .jwt { claims := { user_id := some data.user_id, email := some data.email,
                     type := some "password_reset",
                     exp := now + 3600, iat := now },
         key := h.secret_key, alg := h.algorithm }

/-- Python truthiness of an optional string claim, as used in
`if not user_id or not email`: `None` and the empty string are falsy. -/
def truthyStr : Option String → Bool
  | none => false
  | some s => !(s == "")

/-- Python `str.lower()`, per character (ASCII range, which covers the
emails the system handles). -/
def pyLower (s : String) : String :=
  ⟨s.data.map Char.toLower⟩

/-- Python `str.strip()`: drop whitespace from both ends. -/
def pyStrip (s : String) : String :=
  ⟨((s.data.dropWhile Char.isWhitespace).reverse.dropWhile Char.isWhitespace).reverse⟩

/-- The email normalization `email.lower().strip()` performed by the
Register, Login and ForgetPassword services. -/
def normalizeEmail (s : String) : String :=
  pyStrip (pyLower s)

/-- Digit-run accumulator for `pyInt?`. -/
def pyDigitsAux : List Char → Nat → Option Nat
  | [], acc => some acc
  | c :: cs, acc =>
      if c.isDigit then pyDigitsAux cs (acc * 10 + (c.toNat - 48)) else none

/-- A nonempty digit run read as a natural number. -/
def pyNat? : List Char → Option Nat
  | [] => none
  | cs => pyDigitsAux cs 0

/-- Python `int(str)` as used on the `user_id` claim in `get_current_user`:
optional surrounding whitespace, optional sign, then a nonempty digit
run; anything else raises `ValueError` (here: `none`). -/
def pyInt? (s : String) : Option Int :=
  match (pyStrip s).data with
  | '-' :: cs => (pyNat? cs).map (fun n => -(n : Int))
  | '+' :: cs => (pyNat? cs).map (fun n => (n : Int))
  | cs => (pyNat? cs).map (fun n => (n : Int))

/-- Outcome of `bcrypt.checkpw`: a boolean, or a raised exception (malformed
hash string, wrong algorithm identifier, internal error). -/
inductive BcryptOutcome where
  | ok (b : Bool)
  | raised
deriving Repr, DecidableEq

/-- The bcrypt library as an abstract backend: `checkpw` may return a
boolean or raise; `hashpw` (with a fresh salt already drawn) returns the
hash string. -/
structure PwBackend where
  checkpw : String → String → BcryptOutcome
  hashpw : String → String

/-- `PasswordUtils.verify_password` (helper.py lines 71-87): call
`bcrypt.checkpw` inside `try`, returning `False` on any exception. -/
def verify_password (bc : PwBackend) (plain_password hashed_password : String) : Bool :=
  match bc.checkpw plain_password hashed_password with
  | .ok b => b
  | .raised => false

/-- `PasswordUtils.hash_password` (helper.py lines 57-69). -/
def hash_password (bc : PwBackend) (password : String) : String :=
  bc.hashpw password

/-- The persistence store together with fault switches: when a switch is
set, the corresponding database or email call raises an unexpected
exception, modelling the internal failures the services' `try/except`
must absorb. -/
structure Db where
  users : List Users
  next_id : Nat
  lookup_raises : Bool
  insert_raises : Bool
  update_raises : Bool
  email_raises : Bool
deriving Repr, DecidableEq

/-- `get_user_by_email_for_login` (login_user_method.py):
`select(Users).where(Users.email == email).limit(1)` — the first stored
row with that exact email. -/
def get_user_by_email_for_login (db : Db) (email : String) : Except PyExc (Option Users) :=
  if db.lookup_raises then .error .other
  else .ok (db.users.find? (fun u => u.email == email))

/-- `get_user_by_email_for_password_reset` (password_reset_method.py): the
same single-row select by exact email. -/
def get_user_by_email_for_password_reset (db : Db) (email : String) : Except PyExc (Option Users) :=
  if db.lookup_raises then .error .other
  else .ok (db.users.find? (fun u => u.email == email))

/-- Modelled from the spec: `find_user_by_email(email) -> User?` of the
Persistence store interface (spec section 6).  The file
`create_user_method.py` defining `get_user_by_email` for the Register
workflow is not present under src/; both lookup methods that are present
are the identical single-row select by exact email, which this follows. -/
def get_user_by_email (db : Db) (email : String) : Except PyExc (Option Users) :=
  if db.lookup_raises then .error .other
  else .ok (db.users.find? (fun u => u.email == email))

/-- Modelled from the spec: `insert_user(fields) -> User` of the Persistence
store interface (spec section 6); `create_user_method.py` is not present
under src/.  The store assigns the next fresh integer id and appends the
row. -/
def create_user (db : Db) (email password full_name : String)
    (is_active is_verified : Bool) : Except PyExc (Users × Db) :=
  if db.insert_raises then .error .other
  else
    let u : Users := { id := db.next_id, email := email, password := password,
                       full_name := full_name, is_active := is_active,
                       is_verified := is_verified }
    .ok (u, { db with users := db.users ++ [u], next_id := db.next_id + 1 })

/-- `update_user_password` (password_reset_method.py):
`update(Users).where(Users.id == user_id).values(password=...)` then
commit — every stored row with that id gets the new password hash. -/
def update_user_password (db : Db) (user_id : Nat) (hashed_password : String) :
    Except PyExc Db :=
  if db.update_raises then .error .other
  else .ok { db with
              users := db.users.map (fun u =>
                if u.id == user_id then { u with password := hashed_password } else u) }

/-- `send_email` of the email service, as the workflow sees it: succeeds or
raises. -/
def send_email (db : Db) : Except PyExc Unit :=
  if db.email_raises then .error .other else .ok ()

/-- Message constants of `core/utils/message_variable.py` used by the auth
services. -/
def INVALID_EMAIL_OR_PASSWORD : String := "Invalid email or password"

def USER_INACTIVE : String := "User account is inactive"

def USER_ALREADY_EXISTS : String := "User with this email already exists"

def USER_NOT_FOUND : String := "User not found"

def INVALID_REFRESH_TOKEN : String := "Invalid or expired refresh token"

def SOMETHING_WENT_WRONG : String := "Something went wrong, Please try again later!"

def PASSWORD_CHANGED_SUCCESS : String :=
  "Password changed successfully. You now have full access to the platform."

def LOGIN_SUCCESS : String := "Login successful"

def REFRESH_TOKEN_SUCCESS : String := "Token refreshed successfully"

def USER_CREATED : String := "User created successfully"

def FORGET_PASSWORD_SUCCESS : String :=
  "Password reset link has been sent to your email address. Please check your inbox."

/-- Response payloads the auth services return in `data`: the `{}` null
payload, the serialized user with a token pair, or a token pair alone. -/
inductive RespData where
  | nullData
  | userTokens (user : Users) (access_token : TokenStr) (refresh_token : TokenStr)
  | tokensOnly (access_token : TokenStr) (refresh_token : TokenStr)
deriving Repr, DecidableEq

/-- `StandardResponse` (core/utils/standard_response.py), restricted to the
fields the auth services set. -/
structure StandardResponse where
  status : String
  status_code : Nat
  data : RespData
  message : String
deriving Repr, DecidableEq

/-- A `StandardResponse` with `STATUS_FAIL`, the given code, `STATUS_NULL`
data and the given message. -/
def failResp (code : Nat) (msg : String) : StandardResponse :=
  { status := "fail", status_code := code, data := .nullData, message := msg }

/-- `login_user_service` (login_user_service.py): normalize the email,
look the user up, gate on `is_active`, verify the password, then issue an
access and a refresh token.  The outer `try/except Exception` maps any
raised exception to the 500 catch-all response.  Returns the response and
the store, which this service never writes. -/
def login_user_service (cfg : JWTHandler) (bc : PwBackend) (now : Nat) (db : Db)
    (email0 password : String) : StandardResponse × Db :=
  match get_user_by_email_for_login db (normalizeEmail email0) with
  | .error _ => (failResp 500 SOMETHING_WENT_WRONG, db)
  | .ok none => (failResp 401 INVALID_EMAIL_OR_PASSWORD, db)
  | .ok (some user) =>
      if !user.is_active then
        (failResp 403 USER_INACTIVE, db)
      else if !(verify_password bc password user.password) then
        (failResp 401 INVALID_EMAIL_OR_PASSWORD, db)
      else
        let td : TokenData := { user_id := toString user.id, email := user.email }
        ({ status := "success", status_code := 200,
           data := .userTokens user (cfg.create_access_token now td)
                     (cfg.create_refresh_token now td),
           message := LOGIN_SUCCESS }, db)

/-- `refresh_token_service` (refresh_token_service.py): verify the refresh
token, require truthy `user_id` and `email` claims, look the user up by
the claimed email, gate on `is_active`, then issue a new token pair.  The
outer `try/except Exception` maps EVERY raised exception — the verifier's
`HTTPException`s and any unexpected internal error alike — to the 401
invalid-refresh-token response. -/
def refresh_token_service (cfg : JWTHandler) (now : Nat) (db : Db)
    (refresh_token : TokenStr) : StandardResponse × Db :=
  match cfg.verify_refresh_token now refresh_token with
  | .error _ => (failResp 401 INVALID_REFRESH_TOKEN, db)
  | .ok payload =>
      if !(truthyStr payload.user_id) || !(truthyStr payload.email) then
        (failResp 401 INVALID_REFRESH_TOKEN, db)
      else
        match get_user_by_email_for_login db (payload.email.getD "") with
        | .error _ => (failResp 401 INVALID_REFRESH_TOKEN, db)
        | .ok none => (failResp 401 USER_NOT_FOUND, db)
        | .ok (some user) =>
            if !user.is_active then
              (failResp 403 USER_INACTIVE, db)
            else
              let td : TokenData := { user_id := toString user.id, email := user.email }
              ({ status := "success", status_code := 200,
                 data := .tokensOnly (cfg.create_access_token now td)
                           (cfg.create_refresh_token now td),
                 message := REFRESH_TOKEN_SUCCESS }, db)

/-- `reset_password_service` (reset_password_service.py): an inner
`try/except` turns any `verify_token` failure into a 400; then the `type`
claim must be `"password_reset"`, `user_id` and `email` must be truthy,
the user is looked up by the claimed email, the stored id must equal the
claimed `user_id` string-compared, the user must be active, and the new
password hash is persisted.  The outer `try/except Exception` maps any
unexpected exception to the 500 catch-all response. -/
def reset_password_service (cfg : JWTHandler) (bc : PwBackend) (now : Nat) (db : Db)
    (reset_token : TokenStr) (new_password : String) : StandardResponse × Db :=
  match cfg.verify_token now reset_token with
  | .error _ => (failResp 400 INVALID_REFRESH_TOKEN, db)
  | .ok payload =>
      if payload.type != some "password_reset" then
        (failResp 400 INVALID_REFRESH_TOKEN, db)
      else if !(truthyStr payload.user_id) || !(truthyStr payload.email) then
        (failResp 400 INVALID_REFRESH_TOKEN, db)
      else
        match get_user_by_email_for_password_reset db (payload.email.getD "") with
        | .error _ => (failResp 500 SOMETHING_WENT_WRONG, db)
        | .ok none => (failResp 404 USER_NOT_FOUND, db)
        | .ok (some user) =>
            if toString user.id != payload.user_id.getD "" then
              (failResp 400 INVALID_REFRESH_TOKEN, db)
            else if !user.is_active then
              (failResp 403 USER_INACTIVE, db)
            else
              match update_user_password db user.id (hash_password bc new_password) with
              | .error _ => (failResp 500 SOMETHING_WENT_WRONG, db)
              | .ok db' =>
                  ({ status := "success", status_code := 200, data := .nullData,
                     message := PASSWORD_CHANGED_SUCCESS }, db')

/-- `create_user_service` (create_user_service.py): normalize the email and
name, reject when a user with that email already exists (400,
user-already-exists), otherwise hash the password, insert the row with
`is_active=True, is_verified=False`, and issue a token pair.  The outer
`try/except Exception` maps any unexpected exception to the 500 catch-all
response. -/
def create_user_service (cfg : JWTHandler) (bc : PwBackend) (now : Nat) (db : Db)
    (email0 password full_name0 : String) : StandardResponse × Db :=
  match get_user_by_email db (normalizeEmail email0) with
  | .error _ => (failResp 500 SOMETHING_WENT_WRONG, db)
  | .ok (some _) => (failResp 400 USER_ALREADY_EXISTS, db)
  | .ok none =>
      match create_user db (normalizeEmail email0) (hash_password bc password)
          (pyStrip full_name0) true false with
      | .error _ => (failResp 500 SOMETHING_WENT_WRONG, db)
      | .ok (new_user, db') =>
          let td : TokenData := { user_id := toString new_user.id, email := new_user.email }
          ({ status := "success", status_code := 201,
             data := .userTokens new_user (cfg.create_access_token now td)
                       (cfg.create_refresh_token now td),
             message := USER_CREATED }, db')

/-- `forget_password_service` (forget_password_service.py): normalize the
email; a missing user or an inactive user both get the generic 200
success response; otherwise issue a password-reset token, render the
email and send it, then return the same generic success.  The outer
`try/except Exception` maps any unexpected exception — including a
failing send — to the 500 catch-all response.  The store is never
written. -/
def forget_password_service (cfg : JWTHandler) (now : Nat) (db : Db)
    (email0 : String) : StandardResponse × Db :=
  match get_user_by_email_for_password_reset db (normalizeEmail email0) with
  | .error _ => (failResp 500 SOMETHING_WENT_WRONG, db)
  | .ok none =>
      ({ status := "success", status_code := 200, data := .nullData,
         message := FORGET_PASSWORD_SUCCESS }, db)
  | .ok (some user) =>
      if !user.is_active then
        ({ status := "success", status_code := 200, data := .nullData,
           message := FORGET_PASSWORD_SUCCESS }, db)
      else
        let _reset_token := cfg.create_password_reset_token now
          { user_id := toString user.id, email := user.email }
        match send_email db with
        | .error _ => (failResp 500 SOMETHING_WENT_WRONG, db)
        | .ok _ =>
            ({ status := "success", status_code := 200, data := .nullData,
               message := FORGET_PASSWORD_SUCCESS }, db)

/-- The ORM lookup in `get_current_user`:
`select(Users).where(Users.id == user_id_int).limit(1)`. -/
def get_user_by_id (db : Db) (n : Int) : Except PyExc (Option Users) :=
  if db.lookup_raises then .error .other
  else .ok (db.users.find? (fun u => (u.id : Int) == n))

/-- `get_current_user` (auth_dependencies.py lines 23-99): verify the bearer
token with `verify_token` (no `type` check), require a truthy `user_id`
claim convertible to an integer, load the user by id; `HTTPException`s
are re-raised as-is and any other exception becomes a generic 401. -/
def get_current_user (cfg : JWTHandler) (now : Nat) (db : Db) (credentials : TokenStr) :
    Except PyExc Users :=
  let body : Except PyExc Users :=
    match cfg.verify_token now credentials with
    | .error e => .error e
    | .ok payload =>
        if !(truthyStr payload.user_id) then
          .error (.http 401 "Invalid token: no user_id found")
        else
          match pyInt? (payload.user_id.getD "") with
          | none => .error (.http 401 "Invalid token: invalid user_id format")
          | some n =>
              match get_user_by_id db n with
              | .error e => .error e
              | .ok none => .error (.http 401 "User not found")
              | .ok (some u) => .ok u
  match body with
  | .ok u => .ok u
  | .error (.http c d) => .error (.http c d)
  | .error .other => .error (.http 401 "Could not validate credentials")

/-- Test configuration used by the concrete witnesses. -/
def cfgT : JWTHandler :=
  { secret_key := "secret", algorithm := "HS256",
    access_token_expire_minutes := 30, refresh_token_expire_days := 7 }

/-- Deterministic password backend for concrete witnesses: the hash of a
password `p` is the text `hash:` followed by `p`, and `checkpw` answers
exactly when the candidate hash has that shape. -/
def bcT : PwBackend :=
  { checkpw := fun p h => .ok (h == "hash:" ++ p), hashpw := fun p => "hash:" ++ p }

/-- Active user fixture. -/
def annT : Users :=
  { id := 1, email := "ann@x.com", password := "hash:pw1", full_name := "Ann",
    is_active := true, is_verified := false }

/-- Inactive user fixture. -/
def bobT : Users :=
  { id := 2, email := "bob@x.com", password := "hash:pw2", full_name := "Bob",
    is_active := false, is_verified := true }

/-- Store fixture holding the two user fixtures, with no fault switch set. -/
def dbT : Db :=
  { users := [annT, bobT], next_id := 3, lookup_raises := false,
    insert_raises := false, update_raises := false, email_raises := false }

/-- C8: `verify_password` is total — it returns a boolean for every
plaintext and every candidate hash over every bcrypt backend, and it
returns `false` exactly when `bcrypt.checkpw` raised or answered `false`,
so a raised verification failure is indistinguishable from a
wrong-password failure. -/
theorem C8_verify_password_total (bc : PwBackend) (p h : String) :
    verify_password bc p h = false ↔
      (bc.checkpw p h = .raised ∨ bc.checkpw p h = .ok false) := by
  cases hc : bc.checkpw p h with
  | ok b => cases b <;> simp [verify_password, hc]
  | raised => simp [verify_password, hc]

/-- C10: Login, Refresh and ForgetPassword never mutate the persistence
store — on every success or failure path, the store returned by each of
these services equals the store passed in. -/
theorem C10_read_only_workflows (cfg : JWTHandler) (bc : PwBackend) (now : Nat) (db : Db)
    (email password : String) (tok : TokenStr) (email2 : String) :
    (login_user_service cfg bc now db email password).2 = db ∧
    (refresh_token_service cfg now db tok).2 = db ∧
    (forget_password_service cfg now db email2).2 = db := by
  refine ⟨?_, ?_, ?_⟩
  · unfold login_user_service
    cases get_user_by_email_for_login db (normalizeEmail email) with
    | error e => rfl
    | ok o =>
        cases o with
        | none => rfl
        | some u =>
            dsimp only
            split
            · rfl
            · split <;> rfl
  · unfold refresh_token_service
    cases cfg.verify_refresh_token now tok with
    | error e => rfl
    | ok payload =>
        dsimp only
        split
        · rfl
        · cases get_user_by_email_for_login db (payload.email.getD "") with
          | error e => rfl
          | ok o =>
              cases o with
              | none => rfl
              | some u =>
                  dsimp only
                  split <;> rfl
  · unfold forget_password_service
    cases get_user_by_email_for_password_reset db (normalizeEmail email2) with
    | error e => rfl
    | ok o =>
        cases o with
        | none => rfl
        | some u =>
            dsimp only
            split
            · rfl
            · cases send_email db with
              | error e => rfl
              | ok a => rfl

/-- C3: Login anti-enumeration — a Login whose normalized email matches no
user and a Login whose normalized email matches an active user but whose
password fails verification return the same failure response: 401 with
the invalid-email-or-password message in both runs. -/
theorem C3_login_anti_enumeration (cfg : JWTHandler) (bc : PwBackend) (now : Nat) (db : Db)
    (e1 p1 e2 p2 : String) (u : Users)
    (hnr : db.lookup_raises = false)
    (h1 : db.users.find? (fun v => v.email == normalizeEmail e1) = none)
    (h2 : db.users.find? (fun v => v.email == normalizeEmail e2) = some u)
    (hact : u.is_active = true)
    (hpw : verify_password bc p2 u.password = false) :
    (login_user_service cfg bc now db e1 p1).1 = failResp 401 INVALID_EMAIL_OR_PASSWORD ∧
    (login_user_service cfg bc now db e2 p2).1 = failResp 401 INVALID_EMAIL_OR_PASSWORD := by
  constructor
  · unfold login_user_service get_user_by_email_for_login
    simp [hnr, h1]
  · unfold login_user_service get_user_by_email_for_login
    simp [hnr, h2, hact, hpw]

/-- C3 witness at the concrete fixtures: a nonexistent email and the active
user's email with a wrong password yield the identical failure pair. -/
theorem C3_witness :
    (login_user_service cfgT bcT 0 dbT "ghost@x.com" "whatever").1 =
        failResp 401 INVALID_EMAIL_OR_PASSWORD ∧
    (login_user_service cfgT bcT 0 dbT "ann@x.com" "wrongpw").1 =
        failResp 401 INVALID_EMAIL_OR_PASSWORD :=
  C3_login_anti_enumeration cfgT bcT 0 dbT "ghost@x.com" "whatever" "ann@x.com" "wrongpw" annT
    rfl (by decide) (by decide) rfl (by decide)

/-- C9: Login checks the active flag before verifying the password, so an
inactive user's Login fails 403 inactive for every submitted password,
and this response differs from the 401 invalid-email-or-password response
returned for a nonexistent email, making the inactive account's existence
observable. -/
theorem C9_inactive_before_password (cfg : JWTHandler) (bc : PwBackend) (now : Nat) (db : Db)
    (e p : String) (u : Users)
    (hnr : db.lookup_raises = false)
    (hf : db.users.find? (fun v => v.email == normalizeEmail e) = some u)
    (hin : u.is_active = false) :
    (login_user_service cfg bc now db e p).1 = failResp 403 USER_INACTIVE ∧
    failResp 403 USER_INACTIVE ≠ failResp 401 INVALID_EMAIL_OR_PASSWORD := by
  constructor
  · unfold login_user_service get_user_by_email_for_login
    simp [hnr, hf, hin]
  · decide

/-- C9 witness: the inactive fixture user with the CORRECT password is still
rejected 403 inactive. -/
theorem C9_witness :
    (login_user_service cfgT bcT 0 dbT "bob@x.com" "pw2").1 = failResp 403 USER_INACTIVE ∧
    failResp 403 USER_INACTIVE ≠ failResp 401 INVALID_EMAIL_OR_PASSWORD :=
  C9_inactive_before_password cfgT bcT 0 dbT "bob@x.com" "pw2" bobT rfl (by decide) rfl

/-- A validly-signed refresh token issued at time 0 for the active fixture
user. -/
def refreshTokT : TokenStr :=
  cfgT.create_refresh_token 0 { user_id := "1", email := "ann@x.com" }

/-- C1 counterexample: a validly-signed, unexpired token carrying the type
claim `"refresh"` presented where an access token is expected is NOT
rejected by any type-tag check — `verify_token` accepts it and returns
its claims, and `get_current_user` authenticates the request with it. -/
theorem C1_counterexample :
    cfgT.verify_token 100 refreshTokT =
      .ok { user_id := some "1", email := some "ann@x.com", type := some "refresh",
            exp := 604800, iat := 0 } ∧
    get_current_user cfgT 100 dbT refreshTokT = .ok annT :=
  ⟨rfl, rfl⟩

/-- C1 (amended): the type discrimination holds in only one direction.
`verify_token` performs no type-tag check — every validly-signed,
unexpired token is accepted with its claims returned regardless of its
type claim, so refresh and password-reset tokens pass where an access
token is expected — while `verify_refresh_token` does reject every
validly-signed, unexpired token whose type claim is absent or differs
from `"refresh"` with a wrong-type 401 rejection. -/
theorem C1_token_type_discrimination (h : JWTHandler) (now : Nat) (t : Jwt)
    (hkey : t.key = h.secret_key) (halg : t.alg = h.algorithm)
    (hexp : ¬ t.claims.exp < now) :
    h.verify_token now (.jwt t) = .ok t.claims ∧
    (t.claims.type ≠ some "refresh" →
      h.verify_refresh_token now (.jwt t) =
        .error (.http 401 "Invalid token type: refresh token required")) := by
  constructor
  · unfold JWTHandler.verify_token jwt_decode stripBearer
    simp [hkey, halg, hexp]
  · intro hty
    unfold JWTHandler.verify_refresh_token jwt_decode stripBearer
    simp [hkey, halg, hexp, hty]

/-- A validly-signed password-reset token for the active fixture user. -/
def jwtPRT : Jwt :=
  { claims := { user_id := some "1", email := some "ann@x.com",
                type := some "password_reset", exp := 3600, iat := 0 },
    key := "secret", alg := "HS256" }

/-- C1 witness: a concrete password-reset token is accepted unchecked by
`verify_token` and rejected wrong-type by `verify_refresh_token`. -/
theorem C1_witness :
    cfgT.verify_token 100 (.jwt jwtPRT) = .ok jwtPRT.claims ∧
    cfgT.verify_refresh_token 100 (.jwt jwtPRT) =
      .error (.http 401 "Invalid token type: refresh token required") := by
  have h := C1_token_type_discrimination cfgT 100 jwtPRT rfl rfl (by decide)
  exact ⟨h.1, h.2 (by decide)⟩

/-- C4: ResetPassword cross-check — when a validly-signed, unexpired
password-reset token carries truthy `user_id` and `email` claims and the
email resolves to a stored user whose id (string-compared) differs from
the token's `user_id`, the service fails 400 and the store is returned
unchanged, so no password field is modified. -/
theorem C4_reset_cross_check (cfg : JWTHandler) (bc : PwBackend) (now : Nat) (db : Db)
    (tok : TokenStr) (payload : Claims) (newpw : String) (u : Users)
    (hv : cfg.verify_token now tok = .ok payload)
    (hty : payload.type = some "password_reset")
    (hut : truthyStr payload.user_id = true)
    (het : truthyStr payload.email = true)
    (hnr : db.lookup_raises = false)
    (hf : db.users.find? (fun v => v.email == payload.email.getD "") = some u)
    (hne : toString u.id ≠ payload.user_id.getD "") :
    reset_password_service cfg bc now db tok newpw =
      (failResp 400 INVALID_REFRESH_TOKEN, db) := by
  unfold reset_password_service get_user_by_email_for_password_reset
  simp [hv, hty, hut, het, hnr, hf, hne]

/-- A validly-signed password-reset token whose `user_id` claim is 2 but
whose email claim resolves to the fixture user with id 1. -/
def jwtMismT : Jwt :=
  { claims := { user_id := some "2", email := some "ann@x.com",
                type := some "password_reset", exp := 3600, iat := 0 },
    key := "secret", alg := "HS256" }

/-- C4 witness: the concrete mismatched token is rejected 400 with the
store unchanged. -/
theorem C4_witness :
    reset_password_service cfgT bcT 100 dbT (.jwt jwtMismT) "newpw" =
      (failResp 400 INVALID_REFRESH_TOKEN, dbT) :=
  C4_reset_cross_check cfgT bcT 100 dbT (.jwt jwtMismT) jwtMismT.claims "newpw" annT
    rfl rfl rfl rfl rfl (by decide) (by decide)

/-- Updating the password of the rows carrying a given id does not change
which row an email lookup finds: the lookup on the updated store finds
the updated image of the row it found before. -/
theorem find?_email_pw_update (l : List Users) (e : String) (uid : Nat) (hp : String) :
    (l.map (fun v => if v.id == uid then { v with password := hp } else v)).find?
        (fun v => v.email == e)
      = (l.find? (fun v => v.email == e)).map
          (fun v => if v.id == uid then { v with password := hp } else v) := by
  have hpred : ((fun v : Users => v.email == e) ∘
      (fun v : Users => if v.id == uid then { v with password := hp } else v))
      = (fun v : Users => v.email == e) := by
    funext v
    by_cases h : (v.id == uid) = true <;> simp [Function.comp, h]
  rw [List.find?_map, hpred]

/-- The happy path of `reset_password_service`: with a valid matching token
and an active user, the service returns the success response and the
store with that user's rows repointed to the new hash. -/
theorem reset_password_success (cfg : JWTHandler) (bc : PwBackend)
    (now : Nat) (db : Db) (tok : TokenStr) (payload : Claims)
    (pw : String) (u : Users)
    (hv : cfg.verify_token now tok = .ok payload)
    (hty : payload.type = some "password_reset")
    (hut : truthyStr payload.user_id = true)
    (het : truthyStr payload.email = true)
    (hnr : db.lookup_raises = false)
    (hur : db.update_raises = false)
    (hf : db.users.find? (fun v => v.email == payload.email.getD "") = some u)
    (hid : toString u.id = payload.user_id.getD "")
    (hact : u.is_active = true) :
    reset_password_service cfg bc now db tok pw =
      ({ status := "success", status_code := 200, data := .nullData,
         message := PASSWORD_CHANGED_SUCCESS },
       { db with users := db.users.map (fun v =>
           if v.id == u.id then { v with password := hash_password bc pw } else v) }) := by
  unfold reset_password_service get_user_by_email_for_password_reset update_user_password
  simp [hv, hty, hut, het, hnr, hur, hf, hid, hact]

/-- C5: reset tokens are not single-use — with a still-valid, matching
password-reset token for an active user, two successive ResetPassword
calls with that same token and any two new passwords both return the
success response; the first call records no used-token marker that the
second could trip over. -/
theorem C5_reset_token_not_single_use (cfg : JWTHandler) (bc : PwBackend)
    (now1 now2 : Nat) (db : Db) (tok : TokenStr) (payload : Claims)
    (pw1 pw2 : String) (u : Users)
    (hv1 : cfg.verify_token now1 tok = .ok payload)
    (hv2 : cfg.verify_token now2 tok = .ok payload)
    (hty : payload.type = some "password_reset")
    (hut : truthyStr payload.user_id = true)
    (het : truthyStr payload.email = true)
    (hnr : db.lookup_raises = false)
    (hur : db.update_raises = false)
    (hf : db.users.find? (fun v => v.email == payload.email.getD "") = some u)
    (hid : toString u.id = payload.user_id.getD "")
    (hact : u.is_active = true) :
    (reset_password_service cfg bc now1 db tok pw1).1 =
      { status := "success", status_code := 200, data := .nullData,
        message := PASSWORD_CHANGED_SUCCESS } ∧
    (reset_password_service cfg bc now2
        (reset_password_service cfg bc now1 db tok pw1).2 tok pw2).1 =
      { status := "success", status_code := 200, data := .nullData,
        message := PASSWORD_CHANGED_SUCCESS } := by
  have h1 := reset_password_success cfg bc now1 db tok payload pw1 u
    hv1 hty hut het hnr hur hf hid hact
  have hf2 : (db.users.map (fun v =>
        if v.id == u.id then { v with password := hash_password bc pw1 } else v)).find?
          (fun v => v.email == payload.email.getD "")
      = some { u with password := hash_password bc pw1 } := by
    rw [find?_email_pw_update, hf]
    simp
  have h2 := reset_password_success cfg bc now2
    { db with users := db.users.map (fun v =>
        if v.id == u.id then { v with password := hash_password bc pw1 } else v) }
    tok payload pw2 { u with password := hash_password bc pw1 }
    hv2 hty hut het hnr hur hf2 hid hact
  refine ⟨by rw [h1], ?_⟩
  rw [h1]
  dsimp only
  rw [h2]

/-- C5 witness: two concrete successive resets with the same still-valid
token both succeed. -/
theorem C5_witness :
    (reset_password_service cfgT bcT 100 dbT (.jwt jwtPRT) "npw1").1 =
      { status := "success", status_code := 200, data := .nullData,
        message := PASSWORD_CHANGED_SUCCESS } ∧
    (reset_password_service cfgT bcT 200
        (reset_password_service cfgT bcT 100 dbT (.jwt jwtPRT) "npw1").2
        (.jwt jwtPRT) "npw2").1 =
      { status := "success", status_code := 200, data := .nullData,
        message := PASSWORD_CHANGED_SUCCESS } :=
  C5_reset_token_not_single_use cfgT bcT 100 200 dbT (.jwt jwtPRT)
    jwtPRT.claims "npw1" "npw2" annT rfl rfl rfl rfl rfl rfl rfl
    (by decide) (by decide) rfl

/-- C6: the inactive gate — a user with `is_active = false` is rejected 403
with the inactive message by Login even with the correct password, by
Refresh holding a valid matching refresh token, and by ResetPassword
holding a valid matching password-reset token, in every store containing
that user. -/
theorem C6_inactive_gate (cfg : JWTHandler) (bc : PwBackend) (now : Nat) (db : Db)
    (u : Users) (e p npw : String) (rtok ptok : TokenStr) (rpayload ppayload : Claims)
    (hnr : db.lookup_raises = false)
    (hin : u.is_active = false)
    (hfl : db.users.find? (fun v => v.email == normalizeEmail e) = some u)
    (hvr : cfg.verify_refresh_token now rtok = .ok rpayload)
    (hrut : truthyStr rpayload.user_id = true)
    (hret : truthyStr rpayload.email = true)
    (hfr : db.users.find? (fun v => v.email == rpayload.email.getD "") = some u)
    (hvp : cfg.verify_token now ptok = .ok ppayload)
    (hpty : ppayload.type = some "password_reset")
    (hput : truthyStr ppayload.user_id = true)
    (hpet : truthyStr ppayload.email = true)
    (hfp : db.users.find? (fun v => v.email == ppayload.email.getD "") = some u)
    (hpid : toString u.id = ppayload.user_id.getD "") :
    (login_user_service cfg bc now db e p).1 = failResp 403 USER_INACTIVE ∧
    (refresh_token_service cfg now db rtok).1 = failResp 403 USER_INACTIVE ∧
    (reset_password_service cfg bc now db ptok npw).1 = failResp 403 USER_INACTIVE := by
  refine ⟨?_, ?_, ?_⟩
  · unfold login_user_service get_user_by_email_for_login
    simp [hnr, hfl, hin]
  · unfold refresh_token_service get_user_by_email_for_login
    simp [hvr, hrut, hret, hnr, hfr, hin]
  · unfold reset_password_service get_user_by_email_for_password_reset
    simp [hvp, hpty, hput, hpet, hnr, hfp, hpid, hin]

/-- A valid refresh token for the inactive fixture user. -/
def jwtRefBobT : Jwt :=
  { claims := { user_id := some "2", email := some "bob@x.com",
                type := some "refresh", exp := 604800, iat := 0 },
    key := "secret", alg := "HS256" }

/-- A valid password-reset token for the inactive fixture user. -/
def jwtPRBobT : Jwt :=
  { claims := { user_id := some "2", email := some "bob@x.com",
                type := some "password_reset", exp := 3600, iat := 0 },
    key := "secret", alg := "HS256" }

/-- C6 witness: the inactive fixture user is rejected 403 by all three
workflows even with the correct password and valid matching tokens. -/
theorem C6_witness :
    (login_user_service cfgT bcT 100 dbT "bob@x.com" "pw2").1 = failResp 403 USER_INACTIVE ∧
    (refresh_token_service cfgT 100 dbT (.jwt jwtRefBobT)).1 = failResp 403 USER_INACTIVE ∧
    (reset_password_service cfgT bcT 100 dbT (.jwt jwtPRBobT) "npw").1 =
      failResp 403 USER_INACTIVE :=
  C6_inactive_gate cfgT bcT 100 dbT bobT "bob@x.com" "pw2" "npw"
    (.jwt jwtRefBobT) (.jwt jwtPRBobT) jwtRefBobT.claims jwtPRBobT.claims
    rfl rfl (by decide) rfl rfl rfl (by decide) rfl rfl rfl rfl (by decide) (by decide)

/-- C7: Register duplicate rejection — starting from a store holding no user
under the normalized email, the first Register succeeds (201, created
response with a token pair) and appends exactly the new user; a second
Register with any email that normalizes to the same address fails 400
with the user-already-exists message and leaves the store unchanged. -/
theorem C7_register_duplicate (cfg : JWTHandler) (bc : PwBackend) (now1 now2 : Nat) (db : Db)
    (e1 pw1 n1 e2 pw2 n2 : String)
    (hnr : db.lookup_raises = false)
    (hni : db.insert_raises = false)
    (hnorm : normalizeEmail e2 = normalizeEmail e1)
    (hnone : db.users.find? (fun v => v.email == normalizeEmail e1) = none) :
    ∃ newUser db₁,
      create_user_service cfg bc now1 db e1 pw1 n1 =
        ({ status := "success", status_code := 201,
           data := .userTokens newUser
             (cfg.create_access_token now1
               { user_id := toString newUser.id, email := newUser.email })
             (cfg.create_refresh_token now1
               { user_id := toString newUser.id, email := newUser.email }),
           message := USER_CREATED }, db₁) ∧
      db₁.users = db.users ++ [newUser] ∧
      newUser.email = normalizeEmail e1 ∧
      create_user_service cfg bc now2 db₁ e2 pw2 n2 = (failResp 400 USER_ALREADY_EXISTS, db₁) := by
  use { id := db.next_id, email := normalizeEmail e1,
        password := hash_password bc pw1, full_name := pyStrip n1,
        is_active := true, is_verified := false }
  use { db with
        users := db.users ++
          [{ id := db.next_id, email := normalizeEmail e1,
             password := hash_password bc pw1, full_name := pyStrip n1,
             is_active := true, is_verified := false }],
        next_id := db.next_id + 1 }
  refine ⟨?_, rfl, rfl, ?_⟩
  · unfold create_user_service get_user_by_email create_user
    simp [hnr, hni, hnone]
  · unfold create_user_service get_user_by_email
    simp [hnr, hnone, hnorm, List.find?_append]

/-- C7 witness: concrete first and second registrations under two spellings
of the same normalized email. -/
theorem C7_witness :
    ∃ newUser db₁,
      create_user_service cfgT bcT 0 dbT "NEW@x.com" "pw" "Ned" =
        ({ status := "success", status_code := 201,
           data := .userTokens newUser
             (cfgT.create_access_token 0
               { user_id := toString newUser.id, email := newUser.email })
             (cfgT.create_refresh_token 0
               { user_id := toString newUser.id, email := newUser.email }),
           message := USER_CREATED }, db₁) ∧
      db₁.users = dbT.users ++ [newUser] ∧
      newUser.email = normalizeEmail "NEW@x.com" ∧
      create_user_service cfgT bcT 1 db₁ " new@X.com" "pw2" "Other" =
        (failResp 400 USER_ALREADY_EXISTS, db₁) :=
  C7_register_duplicate cfgT bcT 0 1 dbT "NEW@x.com" "pw" "Ned" " new@X.com" "pw2" "Other"
    rfl rfl (by decide) (by decide)

/-- A store whose persistence lookup raises an unexpected internal
exception. -/
def dbRaisingT : Db :=
  { users := [annT], next_id := 3, lookup_raises := true,
    insert_raises := false, update_raises := false, email_raises := false }

/-- C2 counterexample: with the persistence lookup raising an unexpected
internal error and an otherwise valid refresh token, the Refresh workflow
answers 401 with the invalid-refresh-token message — not the 500
InternalError response with the generic message that the claim requires
of every workflow. -/
theorem C2_counterexample :
    (refresh_token_service cfgT 100 dbRaisingT refreshTokT).1 =
        failResp 401 INVALID_REFRESH_TOKEN ∧
    (refresh_token_service cfgT 100 dbRaisingT refreshTokT).1 ≠
        failResp 500 SOMETHING_WENT_WRONG :=
  ⟨rfl, by decide⟩

/-- C2 (amended): every unexpected internal error at any of the model's
fault sites — the persistence lookup in each workflow, Register's row
insert, ForgetPassword's email send, ResetPassword's password update —
is mapped by Register, Login, ForgetPassword and ResetPassword to the
500 InternalError response with the fixed generic message, but the
Refresh workflow's catch-all instead answers 401 with the
invalid-refresh-token message, conflating internal errors with token
failures. -/
theorem C2_internal_error_handling (cfg : JWTHandler) (bc : PwBackend) (now : Nat)
    (e p n e2 npw : String)
    (dbL : Db) (hL : dbL.lookup_raises = true)
    (dbI : Db) (eI pI nI : String)
    (hInr : dbI.lookup_raises = false)
    (hIir : dbI.insert_raises = true)
    (hInone : dbI.users.find? (fun v => v.email == normalizeEmail eI) = none)
    (dbE : Db) (eE : String) (uE : Users)
    (hEnr : dbE.lookup_raises = false)
    (hEer : dbE.email_raises = true)
    (hEf : dbE.users.find? (fun v => v.email == normalizeEmail eE) = some uE)
    (hEact : uE.is_active = true)
    (dbU : Db) (uU : Users)
    (ptok : TokenStr) (ppayload : Claims)
    (hvp : cfg.verify_token now ptok = .ok ppayload)
    (hpty : ppayload.type = some "password_reset")
    (hput : truthyStr ppayload.user_id = true)
    (hpet : truthyStr ppayload.email = true)
    (hUnr : dbU.lookup_raises = false)
    (hUur : dbU.update_raises = true)
    (hUf : dbU.users.find? (fun v => v.email == ppayload.email.getD "") = some uU)
    (hUid : toString uU.id = ppayload.user_id.getD "")
    (hUact : uU.is_active = true)
    (rtok : TokenStr) (rpayload : Claims)
    (hvr : cfg.verify_refresh_token now rtok = .ok rpayload)
    (hrut : truthyStr rpayload.user_id = true)
    (hret : truthyStr rpayload.email = true) :
    (login_user_service cfg bc now dbL e p).1 = failResp 500 SOMETHING_WENT_WRONG ∧
    (create_user_service cfg bc now dbL e p n).1 = failResp 500 SOMETHING_WENT_WRONG ∧
    (create_user_service cfg bc now dbI eI pI nI).1 = failResp 500 SOMETHING_WENT_WRONG ∧
    (forget_password_service cfg now dbL e2).1 = failResp 500 SOMETHING_WENT_WRONG ∧
    (forget_password_service cfg now dbE eE).1 = failResp 500 SOMETHING_WENT_WRONG ∧
    (reset_password_service cfg bc now dbL ptok npw).1 = failResp 500 SOMETHING_WENT_WRONG ∧
    (reset_password_service cfg bc now dbU ptok npw).1 = failResp 500 SOMETHING_WENT_WRONG ∧
    (refresh_token_service cfg now dbL rtok).1 = failResp 401 INVALID_REFRESH_TOKEN := by
  refine ⟨?_, ?_, ?_, ?_, ?_, ?_, ?_, ?_⟩
  · unfold login_user_service get_user_by_email_for_login
    simp [hL]
  · unfold create_user_service get_user_by_email
    simp [hL]
  · unfold create_user_service get_user_by_email create_user
    simp [hInr, hInone, hIir]
  · unfold forget_password_service get_user_by_email_for_password_reset
    simp [hL]
  · unfold forget_password_service get_user_by_email_for_password_reset send_email
    simp [hEnr, hEf, hEact, hEer]
  · unfold reset_password_service get_user_by_email_for_password_reset
    simp [hvp, hpty, hput, hpet, hL]
  · unfold reset_password_service get_user_by_email_for_password_reset update_user_password
    simp [hvp, hpty, hput, hpet, hUnr, hUf, hUid, hUact, hUur]
  · unfold refresh_token_service get_user_by_email_for_login
    simp [hvr, hrut, hret, hL]

/-- A store whose row insert raises an unexpected internal exception. -/
def dbInsRaisingT : Db :=
  { users := [annT, bobT], next_id := 3, lookup_raises := false,
    insert_raises := true, update_raises := false, email_raises := false }

/-- A store whose email send raises an unexpected internal exception. -/
def dbEmailRaisingT : Db :=
  { users := [annT, bobT], next_id := 3, lookup_raises := false,
    insert_raises := false, update_raises := false, email_raises := true }

/-- A store whose password update raises an unexpected internal
exception. -/
def dbUpdRaisingT : Db :=
  { users := [annT, bobT], next_id := 3, lookup_raises := false,
    insert_raises := false, update_raises := true, email_raises := false }

/-- C2 witness: concrete runs — all five workflows over the store whose
lookup raises, plus Register over a failing insert, ForgetPassword over
a failing email send, and ResetPassword over a failing update. -/
theorem C2_witness :
    (login_user_service cfgT bcT 100 dbRaisingT "ann@x.com" "pw1").1 =
        failResp 500 SOMETHING_WENT_WRONG ∧
    (create_user_service cfgT bcT 100 dbRaisingT "ann@x.com" "pw1" "Ned").1 =
        failResp 500 SOMETHING_WENT_WRONG ∧
    (create_user_service cfgT bcT 100 dbInsRaisingT "new@x.com" "pw" "Ned").1 =
        failResp 500 SOMETHING_WENT_WRONG ∧
    (forget_password_service cfgT 100 dbRaisingT "ann@x.com").1 =
        failResp 500 SOMETHING_WENT_WRONG ∧
    (forget_password_service cfgT 100 dbEmailRaisingT "ann@x.com").1 =
        failResp 500 SOMETHING_WENT_WRONG ∧
    (reset_password_service cfgT bcT 100 dbRaisingT (.jwt jwtPRT) "npw").1 =
        failResp 500 SOMETHING_WENT_WRONG ∧
    (reset_password_service cfgT bcT 100 dbUpdRaisingT (.jwt jwtPRT) "npw").1 =
        failResp 500 SOMETHING_WENT_WRONG ∧
    (refresh_token_service cfgT 100 dbRaisingT refreshTokT).1 =
        failResp 401 INVALID_REFRESH_TOKEN :=
  C2_internal_error_handling cfgT bcT 100 "ann@x.com" "pw1" "Ned" "ann@x.com" "npw"
    dbRaisingT rfl
    dbInsRaisingT "new@x.com" "pw" "Ned" rfl rfl (by decide)
    dbEmailRaisingT "ann@x.com" annT rfl rfl (by decide) rfl
    dbUpdRaisingT annT (.jwt jwtPRT) jwtPRT.claims rfl rfl rfl rfl
    rfl rfl (by decide) (by decide) rfl
    refreshTokT
    { user_id := some "1", email := some "ann@x.com", type := some "refresh",
      exp := 604800, iat := 0 }
    rfl rfl rfl
